import Mathlib

/-!
Verification of the mono-mcp-server core against its specification.

The development shallowly embeds the three core components of the
repository:

* the resilient request executor `retryFetch` with its backoff helper
  `calculateBackoff` (src/utils/retryFetch.ts),
* the error classifier `createActionableError` (src/errors.ts),
* the planning aggregator operations of src/tools/planning.ts together
  with the update-mask helpers (src/utils/update-mask.ts,
  src/tools/items.ts).

Effectful pieces are made explicit: the underlying `fetch` is an oracle
`Nat → FetchOutcome` giving each physical attempt's outcome, the single
uniform random draw per backoff is an oracle `Nat → ℚ`, and a run is
summarised by a `RetryTrace` recording the returned value (or raised
error), the number of fetch invocations, and the sequence of slept
delays.
-/

namespace Mono

/-- An HTTP response as the executor observes it: its status code plus an
opaque identity (`rid`) distinguishing the payloads of distinct attempts. -/
structure Response where
  status : Nat
  rid : Nat
  deriving DecidableEq, Repr

/-- Model of `Response.ok` of the fetch API: the status is in the range 200-299. -/
def respOk (r : Response) : Bool :=
  200 ≤ r.status && r.status ≤ 299

/-- Outcome of one physical `fetch` call: a response, or a rejection
(network-level connection error), identified by `eid`. -/
inductive FetchOutcome where
  | ok (resp : Response)
  | netError (eid : Nat)
  deriving DecidableEq, Repr

/-- RetryConfig of src/utils/retryFetch.ts. `maxRetries` is an `Int`
because the source never guards against a negative value. Delays are
rationals (JS numbers on which only +, *, min and comparison with 0 are
performed here). -/
structure RetryConfig where
  maxRetries : Int
  baseDelayMs : ℚ
  maxDelayMs : ℚ
  timeoutMs : ℚ
  retryableStatuses : List Nat
  deriving DecidableEq, Repr

/-- DEFAULT_RETRY_CONFIG of src/utils/retryFetch.ts. -/
def DEFAULT_RETRY_CONFIG : RetryConfig :=
  ⟨3, 1000, 4000, 1500, [429, 500, 502, 503, 504]⟩

/-- Model of `Math.min` on the (finite, non-NaN) numbers in play. -/
def jsMin (a b : ℚ) : ℚ := if a ≤ b then a else b

/-- calculateBackoff of src/utils/retryFetch.ts, with the attempt's
`Math.random()` draw passed in as `rnd`:
`Math.min(maxDelayMs, (baseDelayMs * 2 ^ attempt) * rnd)`. -/
def calculateBackoff (attempt : Nat) (cfg : RetryConfig) (rnd : ℚ) : ℚ :=
  let exponentialDelay := cfg.baseDelayMs * 2 ^ attempt
  let delayWithJitter := exponentialDelay * rnd
  jsMin cfg.maxDelayMs delayWithJitter

/-- How a `retryFetch` run ends: a returned response, a raised
(propagated) fetch rejection, or the `undefined` produced by the
non-null-asserted `return response!` when the loop body never ran. -/
inductive RetryResult where
  | success (resp : Response)
  | raised (eid : Nat)
  | undefinedResponse
  deriving DecidableEq, Repr

/-- Observable summary of a `retryFetch` run. -/
structure RetryTrace where
  result : RetryResult
  fetchCalls : Nat
  sleeps : List ℚ
  deriving DecidableEq, Repr

/-- The attempt loop of retryFetch (src/utils/retryFetch.ts lines 50-76).
`attempt` is the current index; `remaining = maxRetries - attempt` counts
the attempts still allowed after this one. Each iteration fetches; a
rejection propagates at once; an ok or non-retryable-status response
returns; on the last attempt the failing response returns as-is;
otherwise, when `baseDelayMs > 0`, the computed backoff is slept before
the next attempt. -/
def retryFetchLoop (fetchRes : Nat → FetchOutcome) (rand : Nat → ℚ)
    (cfg : RetryConfig) : Nat → Nat → RetryTrace
  | attempt, 0 =>
    match fetchRes attempt with
    | .netError e => ⟨.raised e, 1, []⟩
    | .ok resp => ⟨.success resp, 1, []⟩
  | attempt, remaining + 1 =>
    match fetchRes attempt with
    | .netError e => ⟨.raised e, 1, []⟩
    | .ok resp =>
      if respOk resp || !(cfg.retryableStatuses.contains resp.status) then
        ⟨.success resp, 1, []⟩
      else
        let rest := retryFetchLoop fetchRes rand cfg (attempt + 1) remaining
        let slept :=
          if cfg.baseDelayMs > 0 then [calculateBackoff attempt cfg (rand attempt)]
          else []
        ⟨rest.result, rest.fetchCalls + 1, slept ++ rest.sleeps⟩

/-- retryFetch of src/utils/retryFetch.ts: the `for` loop runs attempts
0..maxRetries; when `maxRetries < 0` the body never executes and the
trailing `return response!` yields `undefined`. -/
def retryFetch (fetchRes : Nat → FetchOutcome) (rand : Nat → ℚ)
    (cfg : RetryConfig) : RetryTrace :=
  if cfg.maxRetries < 0 then ⟨.undefinedResponse, 0, []⟩
  else retryFetchLoop fetchRes rand cfg 0 cfg.maxRetries.toNat

/-- The sequence of delays a run that keeps retrying sleeps, starting at
attempt `attempt` with `n` retries still to go: one `calculateBackoff`
entry per retry when `baseDelayMs > 0`, nothing otherwise. -/
def expectedSleeps (cfg : RetryConfig) (rand : Nat → ℚ) (attempt : Nat) :
    Nat → List ℚ
  | 0 => []
  | n + 1 =>
    (if cfg.baseDelayMs > 0 then [calculateBackoff attempt cfg (rand attempt)]
      else []) ++ expectedSleeps cfg rand (attempt + 1) n

/-! ## Error classifier (src/errors.ts) -/

/-- One entry of the `details` array of a remote error body
(`ErrorField` of src/types.ts: both members required). -/
structure ErrField where
  field : String
  issue : String
  deriving DecidableEq, Repr

/-- Model of `ErrorDetail` of src/types.ts: the `error` member of a remote error
response. -/
structure ApiErrorBody where
  code : String
  message : String
  details : List ErrField
  deriving DecidableEq, Repr

/-- Model of `RequestContext` of src/types.ts, keeping the three `params` members
the classifier interpolates. `none` renders as the string "undefined",
as a JS template literal does. -/
structure ReqContext where
  operation : String
  list_id : Option String
  item_id : Option String
  template_id : Option String
  deriving DecidableEq, Repr

/-- Model of `ActionableError` of src/types.ts. -/
structure ActionableErr where
  error : String
  code : String
  field : Option String
  suggestion : String
  recovery_action : Option String
  valid_values : Option (List String)
  deriving DecidableEq, Repr

/-- JS `String.prototype.includes`: `pat` occurs contiguously in `s`. -/
def strIncludes (s pat : String) : Bool :=
  decide (pat.data <:+: s.data)

/-- A JS template literal's rendering of a possibly-undefined string. -/
def optToJs : Option String → String
  | some s => s
  | none => "undefined"

/-- The fixed `validationErrors` table of `createActionableError`
(src/errors.ts lines 45-159), keyed by `field:issue`. -/
def validationLookup (key : String) : Option ActionableErr :=
  if key = "title:required field missing" then some
    ⟨"Title is required", "VALIDATION_ERROR", some "title",
      "Every task and list must have a title. Provide a non-empty title string.",
      some "Add a \x27title\x27 field with 1-255 characters.", none⟩
  else if key = "title:must be 255 characters or less" then some
    ⟨"Title too long", "VALIDATION_ERROR", some "title",
      "Title exceeds 255 character limit. Shorten it or split into multiple tasks.",
      some "Truncate title to 255 characters or create subtasks.", none⟩
  else if key = "status:value is required when status is in update_mask" then some
    ⟨"Status value missing", "VALIDATION_ERROR", some "status",
      "You included \x27status\x27 in update_mask but didn\x27t provide a status value.",
      some "Either remove \x27status\x27 from update_mask, or provide item.status.",
      some ["todo", "in_progress", "blocked", "done", "archived", "cancelled"]⟩
  else if key = "status:invalid task status" then some
    ⟨"Invalid status value", "VALIDATION_ERROR", some "status",
      "The status value is not recognized.",
      some "Use one of the valid status values.",
      some ["todo", "in_progress", "blocked", "done", "archived", "cancelled"]⟩
  else if key = "priority:invalid priority level" then some
    ⟨"Invalid priority value", "VALIDATION_ERROR", some "priority",
      "The priority value is not recognized.",
      some "Use one of the valid priority values.",
      some ["low", "medium", "high", "urgent"]⟩
  else if key = "id:invalid ID format" then some
    ⟨"Invalid UUID format", "VALIDATION_ERROR", some "id",
      "IDs must be valid UUIDs (e.g., \x27550e8400-e29b-41d4-a716-446655440000\x27).",
      some "Use list_lists or list_items to get valid IDs.", none⟩
  else if key = "recurrence_pattern:invalid recurrence pattern" then some
    ⟨"Invalid recurrence pattern", "VALIDATION_ERROR", some "recurrence_pattern",
      "The recurrence pattern is not recognized.",
      some "Use one of the valid recurrence patterns.",
      some ["daily", "weekly", "biweekly", "monthly", "yearly", "quarterly", "weekdays"]⟩
  else if key = "recurrence_pattern:value is required when recurrence_pattern is in update_mask" then some
    ⟨"Recurrence pattern value missing", "VALIDATION_ERROR", some "recurrence_pattern",
      "You included \x27recurrence_pattern\x27 in update_mask but didn\x27t provide a value.",
      some "Either remove from update_mask or provide template.recurrence_pattern.",
      some ["daily", "weekly", "biweekly", "monthly", "yearly", "quarterly", "weekdays"]⟩
  else if key = "estimated_duration:invalid duration format (expected ISO 8601 duration like \x27PT1H30M\x27)" then some
    ⟨"Invalid duration format", "VALIDATION_ERROR", some "estimated_duration",
      "Duration must be ISO 8601 format: PT[hours]H[minutes]M",
      some "Examples: \x27PT30M\x27 (30 min), \x27PT1H\x27 (1 hour), \x27PT2H30M\x27 (2.5 hours), \x27PT1H15M\x27 (1h 15m).",
      none⟩
  else if key = "estimated_duration:duration cannot be empty" then some
    ⟨"Empty duration", "VALIDATION_ERROR", some "estimated_duration",
      "Duration was provided but is empty string.",
      some "Provide a valid duration like \x27PT1H\x27 or remove the field entirely.", none⟩
  else if key = "generation_window_days:must be between 1 and 365" then some
    ⟨"Invalid generation window", "VALIDATION_ERROR", some "generation_window_days",
      "Generation window must be 1-365 days.",
      some "Use a value between 1 (generate 1 day ahead) and 365 (1 year ahead). Default is 30.",
      none⟩
  else if key = "etag:must be a numeric string (e.g., \"1\", \"2\")" then some
    ⟨"Invalid ETag format", "VALIDATION_ERROR", some "etag",
      "ETag for optimistic concurrency must be a quoted numeric string.",
      some "Get the current item first - its etag field contains the correct format.", none⟩
  else if key = "recurring_template_id:required for recurring tasks" then some
    ⟨"Missing template ID for recurring task", "VALIDATION_ERROR",
      some "recurring_template_id",
      "Tasks with instance_date must reference a recurring template.",
      some "Either use create_item without instance_date, or provide recurring_template_id.",
      none⟩
  else none

/-- The classifier after the validation branch (src/errors.ts lines
180-281): NOT_FOUND with resource sniffing, UNAUTHORIZED, CONFLICT,
INTERNAL_ERROR / status ≥ 500, INVALID_REQUEST with the update_mask
special case, and the totality fallback. -/
def classifyRest (status : Nat) (code message : String) (ctx : ReqContext) :
    ActionableErr :=
  if code = "NOT_FOUND" then
    if strIncludes message "list" then
      ⟨"List not found", "NOT_FOUND", none,
        "No list exists with ID \x27" ++ optToJs ctx.list_id ++ "\x27.",
        some "Use list_lists to see all available lists and their IDs.", none⟩
    else if strIncludes message "item" then
      ⟨"Item not found", "NOT_FOUND", none,
        "No item exists with ID \x27" ++ optToJs ctx.item_id ++ "\x27 in this list.",
        some "Use list_items with the list_id to see valid item IDs.", none⟩
    else if strIncludes message "recurring template" then
      ⟨"Recurring template not found", "NOT_FOUND", none,
        "No template exists with ID \x27" ++ optToJs ctx.template_id ++ "\x27.",
        some "Use list_recurring_templates with the list_id to see valid template IDs.",
        none⟩
    else
      ⟨"Resource not found", "NOT_FOUND", none,
        "The requested resource does not exist.",
        some "Verify the ID is correct. Use list operations to find valid IDs.", none⟩
  else if code = "UNAUTHORIZED" then
    ⟨"Authentication failed", "UNAUTHORIZED", none,
      "The API key is invalid, expired, or missing.",
      some "Verify MONO_API_KEY environment variable. Keys start with \x27sk-\x27. Contact user if key needs regeneration.",
      none⟩
  else if code = "CONFLICT" then
    ⟨"Resource was modified", "CONFLICT", none,
      "Another process updated this item since you last fetched it.",
      some "Fetch the item again to get the latest etag, then retry your update with the new etag.",
      none⟩
  else if code = "INTERNAL_ERROR" ∨ 500 ≤ status then
    ⟨"Server error", "INTERNAL_ERROR", none,
      "The Mono API encountered an internal error.",
      some "Wait a few seconds and retry. If persistent, the service may be experiencing issues.",
      none⟩
  else if code = "INVALID_REQUEST" then
    if strIncludes message "update_mask" then
      ⟨"Invalid update_mask", "INVALID_REQUEST", none,
        "update_mask specifies which fields to update. It cannot be empty.",
        some "Provide update_mask array with fields to update: [\x27title\x27, \x27status\x27, \x27priority\x27, \x27due_time\x27, \x27tags\x27, \x27estimated_duration\x27, \x27actual_duration\x27, \x27timezone\x27]",
        none⟩
    else
      ⟨message, "INVALID_REQUEST", none,
        "The request format is invalid.",
        some "Check required parameters and their formats.", none⟩
  else
    ⟨(if message = "" then "Unknown error" else message),
      (if code = "" then "UNKNOWN" else code), none,
      "An unexpected error occurred.",
      some "Check the request parameters and retry.", none⟩

/-- createActionableError of src/errors.ts: the validation branch fires
when `code === "VALIDATION_ERROR"` and `details[0]?.field` is truthy
(present and nonempty); everything else goes through `classifyRest`. -/
def createActionableError (status : Nat) (apiError : ApiErrorBody)
    (ctx : ReqContext) : ActionableErr :=
  match apiError.details.head? with
  | some d =>
    if apiError.code = "VALIDATION_ERROR" ∧ d.field ≠ "" then
      match validationLookup (d.field ++ ":" ++ d.issue) with
      | some entry => entry
      | none =>
        ⟨apiError.message, "VALIDATION_ERROR", some d.field,
          "Validation failed for field \x27" ++ d.field ++ "\x27: " ++ d.issue,
          some "Check the field value and format.", none⟩
    else classifyRest status apiError.code apiError.message ctx
  | none => classifyRest status apiError.code apiError.message ctx

/-! ## Update-mask handling (src/utils/update-mask.ts, src/tools/items.ts,
src/tools/recurring.ts) -/

/-- extractUpdateFields of src/utils/update-mask.ts, also inlined in the
update_item case of src/tools/items.ts: walk the mask and keep every
masked field that is present among the supplied values. The JS object is
modelled as an association list (first binding wins on lookup). -/
def extractUpdateFields (args : List (String × String))
    (updateMask : List String) : List (String × String) :=
  updateMask.filterMap (fun f => (args.lookup f).map (fun v => (f, v)))

/-- validateUpdateMask of src/utils/update-mask.ts: rejects an absent or
empty mask with the local error "update_mask cannot be empty". This
helper is exported by the repository but never invoked by any tool
executor. -/
def validateUpdateMask (updateMask : Option (List String)) :
    Except String Unit :=
  match updateMask with
  | none => .error "update_mask cannot be empty"
  | some m => if m.isEmpty then .error "update_mask cannot be empty" else .ok ()

/-- Arguments of the update_item tool as its executor reads them:
`update_mask` may be absent, the remaining fields are the payload. -/
structure UpdateItemArgs where
  list_id : String
  item_id : String
  update_mask : Option (List String)
  fields : List (String × String)
  deriving DecidableEq, Repr

/-- How one invocation of the update_item case of executeItemTool
(src/tools/items.ts lines 286-314) leaves the process: iterating an
absent mask throws a TypeError before anything else, and otherwise the
remote updateItem fetch is issued with the given mask and the masked
item — with no emptiness check in between. -/
inductive UpdateCallOutcome where
  | typeError
  | remoteUpdateItem (mask : List String) (item : List (String × String))
  deriving DecidableEq, Repr

/-- The update_item case of executeItemTool (src/tools/items.ts lines
286-314) up to its remote call: build `item` from the mask and always
proceed to the `updateItem` fetch. -/
def updateItemRequest (args : UpdateItemArgs) : UpdateCallOutcome :=
  match args.update_mask with
  | none => .typeError
  | some mask => .remoteUpdateItem mask (extractUpdateFields args.fields mask)

/-! ## Planning aggregator (src/tools/planning.ts)

Items as the aggregator reads them. Due times stay ISO-8601 strings as
in the wire format; the comparators call `new Date(s).getTime()`, which
is abstracted as a valuation `getTime : String → Int`. -/

/-- ItemPriority of src/types.ts. -/
inductive Priority where
  | low | medium | high | urgent
  deriving DecidableEq, Repr

/-- The `priorityOrder` record of src/tools/planning.ts (also
PRIORITY_ORDER of src/utils/sorting.ts): urgent 0, high 1, medium 2,
low 3. -/
def priorityOrder : Priority → Nat
  | .urgent => 0
  | .high => 1
  | .medium => 2
  | .low => 3

/-- ItemStatus of src/types.ts. -/
inductive Status where
  | todo | in_progress | blocked | done | archived | cancelled
  deriving DecidableEq, Repr

/-- TodoItem of src/types.ts, restricted to the members the planning
aggregator reads. -/
structure TodoItem where
  tid : Nat
  status : Status
  priority : Option Priority
  due_time : Option String
  tags : List String
  estimated_duration : Option String
  deriving DecidableEq, Repr

/-- The priority rank the comparators use: `a.priority || "medium"`. -/
def prioRank (a : TodoItem) : Nat := priorityOrder (a.priority.getD .medium)

/-- The inline comparator of the unscoped get_plannable_tasks case
(src/tools/planning.ts lines 285-296), identical in logic to
sortByPriorityAndDueDate of src/utils/sorting.ts: priority rank
ascending, then due time ascending, and a task with a due time before
one without. -/
def plannableCompare (getTime : String → Int) (a b : TodoItem) : Int :=
  let aPrio : Int := prioRank a
  let bPrio : Int := prioRank b
  if aPrio ≠ bPrio then aPrio - bPrio
  else
    match a.due_time, b.due_time with
    | some x, some y => getTime x - getTime y
    | some _, none => -1
    | none, some _ => 1
    | none, none => 0

/-- The inline comparator of the unscoped get_tasks_by_tag case
(src/tools/planning.ts lines 490-499): priority rank ascending, then due
time ascending when *both* tasks carry one; every other pair compares
equal (the due-before-none branches of `plannableCompare` are absent). -/
def byTagCompare (getTime : String → Int) (a b : TodoItem) : Int :=
  let aPrio : Int := prioRank a
  let bPrio : Int := prioRank b
  if aPrio ≠ bPrio then aPrio - bPrio
  else
    match a.due_time, b.due_time with
    | some x, some y => getTime x - getTime y
    | _, _ => 0

/-- The comparator of the unscoped get_overdue_tasks / get_tasks_due_soon
cases (src/tools/planning.ts lines 425-428): due time ascending, pairs
with a missing due time compare equal. -/
def dueDateCompare (getTime : String → Int) (a b : TodoItem) : Int :=
  match a.due_time, b.due_time with
  | some x, some y => getTime x - getTime y
  | _, _ => 0

/-- Insert `x` into `acc` behind every element that does not have to come
after it. Together with `jsSort` this models a stable
`Array.prototype.sort`. -/
def insertSorted (le : α → α → Bool) (x : α) : List α → List α
  | [] => [x]
  | y :: ys => if le y x then y :: insertSorted le x ys else x :: y :: ys

/-- Model of `allItems.sort(cmp)` as a stable insertion sort: elements
are taken in array order and each is placed after all earlier elements
`y` with `cmp y x ≤ 0`. For a consistent comparator this is the
behaviour ECMA-262 specifies (any stable sort agrees). -/
def jsSort (cmp : α → α → Int) (l : List α) : List α :=
  l.foldl (fun acc x => insertSorted (fun a b => cmp a b ≤ 0) x acc) []

/-- A remote failure as the aggregator's per-call `{ error, response }`
pair: HTTP status plus the error body. -/
abbrev RemoteFailure := Nat × ApiErrorBody

/-- The catalog fan-out shared by every unscoped planning operation
(e.g. src/tools/planning.ts lines 263-281): fetch each list's items in
catalog order; the first failing retrieval aborts the whole walk. -/
def fanOutItems (fetchItems : String → Except RemoteFailure (List TodoItem)) :
    List String → Except RemoteFailure (List TodoItem)
  | [] => .ok []
  | l :: ls =>
    match fetchItems l with
    | .error e => .error e
    | .ok items =>
      match fanOutItems fetchItems ls with
      | .error e => .error e
      | .ok rest => .ok (items ++ rest)

/-- The unscoped get_plannable_tasks case (src/tools/planning.ts lines
252-300): list the catalog, fan out, merge, sort with the plannable
comparator and truncate to `maxItems`. Every failure is classified with
`createActionableError` before being thrown. -/
def getPlannableTasksUnscoped (getTime : String → Int) (maxItems : Nat)
    (ctx : ReqContext) (listsResult : Except RemoteFailure (List String))
    (fetchItems : String → Except RemoteFailure (List TodoItem)) :
    Except ActionableErr (List TodoItem) :=
  match listsResult with
  | .error (st, body) => .error (createActionableError st body ctx)
  | .ok lists =>
    match fanOutItems fetchItems lists with
    | .error (st, body) => .error (createActionableError st body ctx)
    | .ok allItems => .ok ((jsSort (plannableCompare getTime) allItems).take maxItems)

/-- The unscoped get_tasks_by_tag case (src/tools/planning.ts lines
457-502): the tag filter is pushed to the server (a `tags` query
parameter per list call), the merged items are sorted with the by-tag
comparator, and no truncation happens. -/
def getTasksByTagUnscoped (getTime : String → Int) (ctx : ReqContext)
    (listsResult : Except RemoteFailure (List String))
    (fetchItems : String → Except RemoteFailure (List TodoItem)) :
    Except ActionableErr (List TodoItem) :=
  match listsResult with
  | .error (st, body) => .error (createActionableError st body ctx)
  | .ok lists =>
    match fanOutItems fetchItems lists with
    | .error (st, body) => .error (createActionableError st body ctx)
    | .ok allItems => .ok (jsSort (byTagCompare getTime) allItems)

/-- The filter predicate of get_tasks_due_soon and of the due-this-week
accumulation of get_workload_summary:
`item.due_time && item.due_time >= nowISO && item.due_time <= future`,
by lexicographic string comparison of the ISO timestamps. -/
def dueInWindow (nowISO futureISO : String) (it : TodoItem) : Bool :=
  match it.due_time with
  | some d => nowISO ≤ d && d ≤ futureISO
  | none => false

/-- The filter of get_tasks_due_soon (src/tools/planning.ts lines 392 and
421). -/
def dueSoonFilter (nowISO futureISO : String) (items : List TodoItem) :
    List TodoItem :=
  items.filter (dueInWindow nowISO futureISO)

/-- The per-list walk of the unscoped get_tasks_due_soon case
(src/tools/planning.ts lines 404-423): fetch, filter to the window, push. -/
def fanOutDueSoon (nowISO futureISO : String)
    (fetchItems : String → Except RemoteFailure (List TodoItem)) :
    List String → Except RemoteFailure (List TodoItem)
  | [] => .ok []
  | l :: ls =>
    match fetchItems l with
    | .error e => .error e
    | .ok items =>
      match fanOutDueSoon nowISO futureISO fetchItems ls with
      | .error e => .error e
      | .ok rest => .ok (dueSoonFilter nowISO futureISO items ++ rest)

/-- The unscoped get_tasks_due_soon case (src/tools/planning.ts lines
394-431): `nowISO` is the captured instant, `futureISO` the rendering of
`now + daysAhead` days; merge the per-list filtered items and sort by
due time ascending. -/
def getTasksDueSoonUnscoped (getTime : String → Int)
    (nowISO futureISO : String) (ctx : ReqContext)
    (listsResult : Except RemoteFailure (List String))
    (fetchItems : String → Except RemoteFailure (List TodoItem)) :
    Except ActionableErr (List TodoItem) :=
  match listsResult with
  | .error (st, body) => .error (createActionableError st body ctx)
  | .ok lists =>
    match fanOutDueSoon nowISO futureISO fetchItems lists with
    | .error (st, body) => .error (createActionableError st body ctx)
    | .ok allDueSoon => .ok (jsSort (dueDateCompare getTime) allDueSoon)

/-- The numeric value of a digit run, as `parseInt` reads it. -/
def digitsToNat (ds : List Char) : Nat :=
  ds.foldl (fun n c => 10 * n + (c.toNat - 48)) 0

/-- One optional regex group `(?:(\d+)U)?` at the current position: a
non-empty digit run followed by the unit letter consumes both and yields
the number; anything else matches the empty alternative and consumes
nothing. -/
def parseNumUnit (u : Char) (cs : List Char) : Option Nat × List Char :=
  let ds := cs.takeWhile (fun c => c.isDigit)
  let rest := cs.dropWhile (fun c => c.isDigit)
  match ds, rest with
  | [], _ => (none, cs)
  | _, [] => (none, cs)
  | _ :: _, c :: rest2 => if c = u then (some (digitsToNat ds), rest2) else (none, cs)

/-- The leftmost match position of the regex
`PT(?:(\d+)H)?(?:(\d+)M)?`: the suffix after the first occurrence of
"PT" (both groups being optional, the regex matches exactly there). -/
def findPT : List Char → Option (List Char)
  | [] => none
  | c :: rest =>
    if c = 'P' ∧ rest.head? = some 'T' then some rest.tail
    else findPT rest

/-- parseDurationToHours of src/tools/planning.ts lines 196-204: absent
duration gives 0, a string the regex does not match gives 0, and a match
gives `hours + minutes / 60` (JS number arithmetic modelled exactly on
ℚ). -/
def parseDurationToHours : Option String → ℚ
  | none => 0
  | some s =>
    match findPT s.data with
    | none => 0
    | some rest =>
      let hPart := parseNumUnit 'H' rest
      let mPart := parseNumUnit 'M' hPart.2
      ((hPart.1.getD 0 : ℚ)) + ((mPart.1.getD 0 : ℚ)) / 60

/-- Model of `Math.round`: half-up rounding, `⌊q + 1/2⌋`. -/
def jsRound (q : ℚ) : Int := ⌊q + 1 / 2⌋

/-- Model of `Math.round(h * 10) / 10`, src/tools/planning.ts line 602. -/
def roundTo1 (q : ℚ) : ℚ := (jsRound (q * 10) : ℚ) / 10

/-- The overdue predicate (`due_time && due_time < nowISO`) of
get_overdue_tasks and of the overdue accumulation of
get_workload_summary. -/
def isOverdueAt (nowISO : String) (it : TodoItem) : Bool :=
  match it.due_time with
  | some d => decide (d < nowISO)
  | none => false

/-- The aggregate of the get_workload_summary case that the claims
mention (src/tools/planning.ts lines 560-607); the per-priority and
per-tag breakdowns accumulate independently in the same loop and are
omitted. -/
structure WorkloadSummary where
  total_tasks : Nat
  total_hours : ℚ
  overdue_count : Nat
  due_this_week_count : Nat
  deriving DecidableEq, Repr

/-- The get_workload_summary aggregation loop over the merged item set
(src/tools/planning.ts lines 573-607): hours accumulate through
`parseDurationToHours` and the reported total is rounded to one decimal
place. -/
def workloadSummary (nowISO oneWeekISO : String) (items : List TodoItem) :
    WorkloadSummary :=
  ⟨items.length,
    roundTo1 (items.foldl
      (fun acc it => acc + parseDurationToHours it.estimated_duration) 0),
    (items.filter (isOverdueAt nowISO)).length,
    (items.filter (dueInWindow nowISO oneWeekISO)).length⟩

/-- An equal-priority tagged task without a due time, listed before one
with a due time. -/
def cexNoDue : TodoItem := ⟨1, .todo, some .medium, none, ["work"], none⟩

/-- An equal-priority tagged task with a due time. -/
def cexWithDue : TodoItem :=
  ⟨2, .todo, some .medium, some "2025-01-01T00:00:00.000Z", ["work"], none⟩

/-- The ordering relation C6 claims for get_tasks_by_tag: priority rank
ascending; within equal rank due time ascending, and a task with a due
time before every task without one. -/
def claimedTagRel (getTime : String → Int) (a b : TodoItem) : Bool :=
  decide (prioRank a < prioRank b) ||
    (decide (prioRank a = prioRank b) &&
      match a.due_time, b.due_time with
      | some x, some y => decide (getTime x ≤ getTime y)
      | some _, none => true
      | none, some _ => false
      | none, none => true)

/-- The context of the fan-out scenario the spec describes. -/
def fanCtx : ReqContext := ⟨"get_plannable_tasks", none, none, none⟩

/-- The raw failure list 2 of the scenario returns. -/
def fanBody : ApiErrorBody := ⟨"INTERNAL_ERROR", "boom", []⟩

/-- Three lists; the second one's item retrieval fails with a 500. -/
def fanFetch : String → Except RemoteFailure (List TodoItem) :=
  fun l => if l = "l2" then .error (500, fanBody) else .ok [cexWithDue]

/-- The captured instant of the witness scenario. -/
def dueNowISO : String := "2025-01-01T00:00:00.000Z"

/-- The instant `now + 7` days, rendered as `Date.prototype.toISOString` does. -/
def dueEndISO : String := "2025-01-08T00:00:00.000Z"

/-- One second past the end of the window. -/
def dueAfterISO : String := "2025-01-08T00:00:01.000Z"

/-- A task due exactly at the captured instant. -/
def taskAtNow : TodoItem := ⟨10, .todo, some .medium, some dueNowISO, [], none⟩

/-- A task due exactly at the end of the window. -/
def taskAtEnd : TodoItem := ⟨11, .todo, some .medium, some dueEndISO, [], none⟩

/-- A task due one second after the window. -/
def taskAfter : TodoItem := ⟨12, .todo, some .medium, some dueAfterISO, [], none⟩

/-- The two tasks and the duration-free task of the workload scenario. -/
def wlOneHour : TodoItem := ⟨20, .todo, some .medium, none, [], some "PT1H"⟩

/-- A task estimated at thirty minutes. -/
def wlHalfHour : TodoItem := ⟨21, .todo, some .medium, none, [], some "PT30M"⟩

/-- A task with no estimated duration. -/
def wlNoDuration : TodoItem := ⟨22, .todo, some .medium, none, [], none⟩

/-! ## Theorems -/

theorem jsMin_eq_min (a b : ℚ) : jsMin a b = min a b := (min_def a b).symm

/-- The backoff helper caps the already-jittered exponential delay:
`min(maxDelayMs, (baseDelayMs * 2 ^ attempt) * rnd)`. -/
theorem calculateBackoff_eq (attempt : Nat) (cfg : RetryConfig) (rnd : ℚ) :
    calculateBackoff attempt cfg rnd =
      jsMin cfg.maxDelayMs (cfg.baseDelayMs * 2 ^ attempt * rnd) := rfl

/-- When every attempt yields a non-ok response whose status is retryable,
the loop runs through its whole budget: `remaining + 1` fetch calls, the
final attempt's response returned, and one backoff sleep between
consecutive attempts whenever `baseDelayMs > 0`. -/
theorem retryFetchLoop_allRetryable (fetchRes : Nat → FetchOutcome)
    (rand : Nat → ℚ) (cfg : RetryConfig) (resp : Nat → Response)
    (hfetch : ∀ i, fetchRes i = .ok (resp i))
    (hmem : ∀ i, cfg.retryableStatuses.contains (resp i).status = true)
    (hok : ∀ i, respOk (resp i) = false) :
    ∀ remaining attempt,
      retryFetchLoop fetchRes rand cfg attempt remaining =
        ⟨.success (resp (attempt + remaining)), remaining + 1,
          expectedSleeps cfg rand attempt remaining⟩ := by
  intro remaining
  induction remaining with
  | zero =>
    intro attempt
    simp [retryFetchLoop, hfetch attempt, hmem attempt, hok attempt,
      expectedSleeps]
  | succ n ih =>
    intro attempt
    have h1 : attempt + 1 + n = attempt + (n + 1) := by omega
    simp only [retryFetchLoop, hfetch attempt, hmem attempt, hok attempt,
      Bool.not_true, Bool.false_or, Bool.false_eq_true, if_false,
      ih (attempt + 1), expectedSleeps]
    rw [h1]

/-- C2: with `maxRetries = r ≥ 0` and an underlying call that on every
attempt returns a response whose status is retryable (and not a success
status), `retryFetch` makes exactly `r + 1` fetch attempts and returns
the final still-failing response itself, raising nothing. -/
theorem retryFetch_exhausts_retryable (fetchRes : Nat → FetchOutcome)
    (rand : Nat → ℚ) (cfg : RetryConfig) (resp : Nat → Response) (r : Nat)
    (hr : cfg.maxRetries = (r : Int))
    (hfetch : ∀ i, fetchRes i = .ok (resp i))
    (hmem : ∀ i, cfg.retryableStatuses.contains (resp i).status = true)
    (hok : ∀ i, respOk (resp i) = false) :
    (retryFetch fetchRes rand cfg).fetchCalls = r + 1 ∧
      (retryFetch fetchRes rand cfg).result = .success (resp r) := by
  have hnn : ¬ cfg.maxRetries < 0 := by omega
  have := retryFetchLoop_allRetryable fetchRes rand cfg resp hfetch hmem hok
    cfg.maxRetries.toNat 0
  rw [retryFetch, if_neg hnn, this]
  have htn : cfg.maxRetries.toNat = r := by omega
  simp [htn]

/-- Witness for C2: three retryable 503 responses under `maxRetries = 2`
give exactly 3 fetch calls and return the last 503. -/
theorem retryFetch_exhausts_retryable_witness :
    (retryFetch (fun _ => .ok ⟨503, 0⟩) (fun _ => 0)
        ⟨2, 0, 0, 2500, [503]⟩).fetchCalls = 3 ∧
      (retryFetch (fun _ => .ok ⟨503, 0⟩) (fun _ => 0)
        ⟨2, 0, 0, 2500, [503]⟩).result = .success ⟨503, 0⟩ :=
  retryFetch_exhausts_retryable (fun _ => .ok ⟨503, 0⟩) (fun _ => 0)
    ⟨2, 0, 0, 2500, [503]⟩ (fun _ => ⟨503, 0⟩) 2 rfl (fun _ => rfl)
    (fun _ => rfl) (fun _ => rfl)

theorem expectedSleeps_get (cfg : RetryConfig) (rand : Nat → ℚ)
    (hb : (0 : ℚ) < cfg.baseDelayMs) :
    ∀ n attempt j, j < n →
      (expectedSleeps cfg rand attempt n).get? j =
        some (calculateBackoff (attempt + j) cfg (rand (attempt + j))) := by
  intro n
  induction n with
  | zero => intro attempt j hj; omega
  | succ n ih =>
    intro attempt j hj
    match j with
    | 0 => simp [expectedSleeps, hb]
    | j + 1 =>
      have h1 : attempt + 1 + j = attempt + (j + 1) := by omega
      have := ih (attempt + 1) j (by omega)
      simp only [expectedSleeps, hb, if_pos, gt_iff_lt, List.singleton_append,
        List.get?_cons_succ]
      rw [this, h1]

theorem expectedSleeps_of_base_zero (cfg : RetryConfig) (rand : Nat → ℚ)
    (hb : cfg.baseDelayMs = 0) :
    ∀ n attempt, expectedSleeps cfg rand attempt n = [] := by
  intro n
  induction n with
  | zero => intro attempt; rfl
  | succ n ih => intro attempt; simp [expectedSleeps, hb, ih]

/-- C4 (amended): before each retry the executor sleeps
`min(maxDelayMs, (baseDelayMs * 2 ^ i) * r_i)` — the jitter draw scales
the *uncapped* exponential, and the cap is applied afterwards — and when
`baseDelayMs = 0` no sleep occurs at all. -/
theorem backoff_cap_after_jitter (fetchRes : Nat → FetchOutcome)
    (rand : Nat → ℚ) (cfg : RetryConfig) (resp : Nat → Response) (r : Nat)
    (hr : cfg.maxRetries = (r : Int))
    (hfetch : ∀ i, fetchRes i = .ok (resp i))
    (hmem : ∀ i, cfg.retryableStatuses.contains (resp i).status = true)
    (hok : ∀ i, respOk (resp i) = false) :
    ((0 : ℚ) < cfg.baseDelayMs → ∀ j, j < r →
      (retryFetch fetchRes rand cfg).sleeps.get? j =
        some (jsMin cfg.maxDelayMs (cfg.baseDelayMs * 2 ^ j * rand j))) ∧
    (cfg.baseDelayMs = 0 → (retryFetch fetchRes rand cfg).sleeps = []) := by
  have hnn : ¬ cfg.maxRetries < 0 := by omega
  have htn : cfg.maxRetries.toNat = r := by omega
  have hloop := retryFetchLoop_allRetryable fetchRes rand cfg resp hfetch hmem hok
    cfg.maxRetries.toNat 0
  constructor
  · intro hb j hj
    rw [retryFetch, if_neg hnn, hloop]
    have := expectedSleeps_get cfg rand hb cfg.maxRetries.toNat 0 j (by omega)
    simpa [calculateBackoff] using this
  · intro hb
    rw [retryFetch, if_neg hnn, hloop]
    exact expectedSleeps_of_base_zero cfg rand hb cfg.maxRetries.toNat 0

/-- Witness for C4 (amended): `baseDelayMs = 1000`, `maxDelayMs = 4000`,
draw 3/4 at every retry. The sleep before attempt 4 is
`min(4000, 1000 * 2^3 * 3/4) = 4000`; with `baseDelayMs = 0` no sleep
happens. -/
theorem backoff_cap_after_jitter_witness :
    (retryFetch (fun _ => .ok ⟨503, 1⟩) (fun _ => 3 / 4)
        ⟨5, 1000, 4000, 1500, [503]⟩).sleeps.get? 3 = some 4000 ∧
    (retryFetch (fun _ => .ok ⟨503, 1⟩) (fun _ => 3 / 4)
        ⟨5, 0, 4000, 1500, [503]⟩).sleeps = [] := by
  constructor
  · have := (backoff_cap_after_jitter (fun _ => .ok ⟨503, 1⟩) (fun _ => 3 / 4)
      ⟨5, 1000, 4000, 1500, [503]⟩ (fun _ => ⟨503, 1⟩) 5 rfl (fun _ => rfl)
      (fun _ => rfl) (fun _ => rfl)).1 (by norm_num) 3 (by norm_num)
    rw [this]
    congr 1
    rw [jsMin]
    norm_num
  · exact (backoff_cap_after_jitter (fun _ => .ok ⟨503, 1⟩) (fun _ => 3 / 4)
      ⟨5, 0, 4000, 1500, [503]⟩ (fun _ => ⟨503, 1⟩) 5 rfl (fun _ => rfl)
      (fun _ => rfl) (fun _ => rfl)).2 rfl

/-- C4 counterexample: with `baseDelayMs = 1000`, `maxDelayMs = 4000` and
a draw of 3/4 before attempt 4, the executor sleeps
`min(4000, (1000 * 2^3) * 3/4) = 4000`, while the claimed formula
`r * min(maxDelayMs, baseDelayMs * 2^i)` gives `3/4 * 4000 = 3000`. -/
theorem backoff_formula_cex :
    (retryFetch (fun _ => .ok ⟨503, 1⟩) (fun _ => 3 / 4)
        ⟨5, 1000, 4000, 1500, [503]⟩).sleeps.get? 3 = some 4000 ∧
    (3 : ℚ) / 4 * min (4000 : ℚ) (1000 * 2 ^ 3) = 3000 ∧
    (4000 : ℚ) ≠ 3000 := by
  refine ⟨by with_unfolding_all rfl, by norm_num, by norm_num⟩

/-- C1 (amended): a network-level fetch rejection is not retried: at
whatever attempt it happens — final or not — the loop propagates it at
once, with that single fetch call and no backoff sleep; in particular
when the very first attempt rejects, `retryFetch` raises after exactly
one fetch regardless of how many retries the configuration allows. -/
theorem netError_raises_immediately (fetchRes : Nat → FetchOutcome)
    (rand : Nat → ℚ) (cfg : RetryConfig) :
    (∀ attempt remaining e, fetchRes attempt = .netError e →
      retryFetchLoop fetchRes rand cfg attempt remaining = ⟨.raised e, 1, []⟩) ∧
    (∀ e, 0 ≤ cfg.maxRetries → fetchRes 0 = .netError e →
      retryFetch fetchRes rand cfg = ⟨.raised e, 1, []⟩) := by
  constructor
  · intro attempt remaining e h
    cases remaining <;> simp [retryFetchLoop, h]
  · intro e hmr h
    rw [retryFetch, if_neg (by omega)]
    cases htn : cfg.maxRetries.toNat <;> simp [retryFetchLoop, h]

/-- Witness for C1 (amended): under the default config (3 retries), a
rejection of attempt 0 is raised with exactly one fetch call. -/
theorem netError_raises_immediately_witness :
    retryFetch (fun _ => .netError 7) (fun _ => 0) DEFAULT_RETRY_CONFIG =
      ⟨.raised 7, 1, []⟩ :=
  (netError_raises_immediately (fun _ => .netError 7) (fun _ => 0)
    DEFAULT_RETRY_CONFIG).2 7 (by norm_num [DEFAULT_RETRY_CONFIG]) rfl

/-- C1 counterexample: attempt 0 of the default configuration
(`maxRetries = 3`, so 0 < maxRetries) rejects at the network level; the
claim would have the executor back off and proceed to attempt 1, but the
run makes exactly one fetch call, sleeps nothing, and raises. -/
theorem netError_not_retried_cex :
    DEFAULT_RETRY_CONFIG.maxRetries = 3 ∧
    retryFetch (fun _ => .netError 7) (fun _ => 0) DEFAULT_RETRY_CONFIG =
      ⟨.raised 7, 1, []⟩ :=
  ⟨rfl, by with_unfolding_all rfl⟩

theorem retryFetchLoop_provenance (fetchRes : Nat → FetchOutcome)
    (rand : Nat → ℚ) (cfg : RetryConfig) :
    ∀ remaining attempt,
      (retryFetchLoop fetchRes rand cfg attempt remaining).result ≠
        .undefinedResponse ∧
      (∀ resp,
        (retryFetchLoop fetchRes rand cfg attempt remaining).result =
          .success resp →
        ∃ i, attempt ≤ i ∧ i ≤ attempt + remaining ∧ fetchRes i = .ok resp) := by
  intro remaining
  induction remaining with
  | zero =>
    intro attempt
    cases h : fetchRes attempt with
    | netError e => simp [retryFetchLoop, h]
    | ok resp =>
      refine ⟨by simp [retryFetchLoop, h], ?_⟩
      intro resp' hres
      refine ⟨attempt, le_refl _, by omega, ?_⟩
      simp only [retryFetchLoop, h] at hres
      cases hres
      exact h
  | succ n ih =>
    intro attempt
    cases h : fetchRes attempt with
    | netError e => simp [retryFetchLoop, h]
    | ok resp =>
      by_cases hcond :
          (respOk resp || !cfg.retryableStatuses.contains resp.status) = true
      · refine ⟨?_, ?_⟩
        · simp only [retryFetchLoop, h]
          rw [if_pos hcond]
          simp
        intro resp' hres
        simp only [retryFetchLoop, h] at hres
        rw [if_pos hcond] at hres
        cases hres
        exact ⟨attempt, le_refl _, by omega, h⟩
      · have hrec := ih (attempt + 1)
        refine ⟨?_, ?_⟩
        · simp only [retryFetchLoop, h]
          rw [if_neg hcond]
          exact hrec.1
        · intro resp' hres
          simp only [retryFetchLoop, h] at hres
          rw [if_neg hcond] at hres
          obtain ⟨i, hi1, hi2, hi3⟩ := hrec.2 resp' hres
          exact ⟨i, by omega, by omega, hi3⟩

/-- C10: the declared result type of `retryFetch` is honored exactly when
`maxRetries ≥ 0`: in that case the returned value is a response produced
by one of the attempts 0..maxRetries (the trailing non-null-asserted
return is unreachable), while a configuration with `maxRetries < 0` runs
the loop body zero times, makes no fetch, and resolves with `undefined`
despite the `Promise<Response>` signature. -/
theorem retryFetch_result_provenance (fetchRes : Nat → FetchOutcome)
    (rand : Nat → ℚ) (cfg : RetryConfig) :
    (cfg.maxRetries < 0 →
      retryFetch fetchRes rand cfg = ⟨.undefinedResponse, 0, []⟩) ∧
    (0 ≤ cfg.maxRetries →
      (retryFetch fetchRes rand cfg).result ≠ .undefinedResponse ∧
      ∀ resp, (retryFetch fetchRes rand cfg).result = .success resp →
        ∃ i, i ≤ cfg.maxRetries.toNat ∧ fetchRes i = .ok resp) := by
  constructor
  · intro hneg
    rw [retryFetch, if_pos hneg]
  · intro hmr
    rw [retryFetch, if_neg (by omega)]
    have := retryFetchLoop_provenance fetchRes rand cfg cfg.maxRetries.toNat 0
    exact ⟨this.1, fun resp hres => by
      obtain ⟨i, _, hi2, hi3⟩ := this.2 resp hres
      exact ⟨i, by omega, hi3⟩⟩

/-- Witness for C10: `maxRetries = -1` yields the undefined result with
zero fetches; `maxRetries = 0` with a 200 response returns a response. -/
theorem retryFetch_result_provenance_witness :
    retryFetch (fun _ => .ok ⟨200, 0⟩) (fun _ => 0) ⟨-1, 0, 0, 1500, []⟩ =
      ⟨.undefinedResponse, 0, []⟩ ∧
    (retryFetch (fun _ => .ok ⟨200, 0⟩) (fun _ => 0)
      ⟨0, 0, 0, 1500, []⟩).result ≠ .undefinedResponse :=
  ⟨(retryFetch_result_provenance (fun _ => .ok ⟨200, 0⟩) (fun _ => 0)
      ⟨-1, 0, 0, 1500, []⟩).1 (by norm_num),
    ((retryFetch_result_provenance (fun _ => .ok ⟨200, 0⟩) (fun _ => 0)
      ⟨0, 0, 0, 1500, []⟩).2 (by norm_num)).1⟩

theorem str_append_ne_empty (a b : String) (h : a ≠ "") : a ++ b ≠ "" := by
  intro hab
  apply h
  have hd := congrArg String.data hab
  rw [String.data_append] at hd
  rcases List.append_eq_nil.mp hd with ⟨h1, _⟩
  exact String.ext h1

theorem validationLookup_suggestion_ne_empty (key : String) :
    (validationLookup key).all (fun e => !(e.suggestion == "")) = true := by
  unfold validationLookup
  simp [apply_ite (Option.all (fun e : ActionableErr => !(e.suggestion == "")))]

/-- C5: the classifier is total. `createActionableError` is a plain total
function of its (typed) inputs — every combination of HTTP status, remote
code, message and `(field, issue)` details reaches some branch, the
fallback included — and on every input the produced `ActionableError`
carries a non-empty `suggestion`. -/
theorem createActionableError_suggestion_ne_empty (status : Nat)
    (apiError : ApiErrorBody) (ctx : ReqContext) :
    (createActionableError status apiError ctx).suggestion ≠ "" := by
  have hrest : ∀ code message,
      (classifyRest status code message ctx).suggestion ≠ "" := by
    intro code message
    unfold classifyRest
    repeat' split
    all_goals first
      | exact str_append_ne_empty _ _ (str_append_ne_empty _ _ (by decide))
      | exact str_append_ne_empty _ _
          (str_append_ne_empty _ _ (str_append_ne_empty _ _ (by decide)))
      | simp
  unfold createActionableError
  split
  · split
    · split
      · rename_i xopt d hhead hcond xlook entry heq
        have hall := validationLookup_suggestion_ne_empty (d.field ++ ":" ++ d.issue)
        rw [heq] at hall
        simpa using hall
      · exact str_append_ne_empty _ _
          (str_append_ne_empty _ _ (str_append_ne_empty _ _ (by decide)))
    · exact hrest _ _
  · exact hrest _ _

/-- C3 (code evaluated at the failing input): called with an *empty*
update mask, the update_item executor issues the remote call
`updateItem` with `update_mask = []` — no local input error precedes
it — even though the repository's own `validateUpdateMask` rejects that
exact mask with "update_mask cannot be empty". The
update_recurring_template executor shares the unvalidated
`extractUpdateFields` path. -/
theorem update_item_empty_mask_issues_remote_call :
    updateItemRequest ⟨"list-1", "item-1", some [], [("title", "x")]⟩ =
      .remoteUpdateItem [] [] ∧
    validateUpdateMask (some []) = .error "update_mask cannot be empty" := by
  exact ⟨rfl, rfl⟩

theorem insertSorted_perm (le : α → α → Bool) (x : α) :
    ∀ l : List α, List.Perm (insertSorted le x l) (x :: l) := by
  intro l
  induction l with
  | nil => rfl
  | cons y ys ih =>
    rw [insertSorted]
    by_cases hyx : le y x = true
    · rw [if_pos hyx]
      exact ((ih.cons y).trans (List.Perm.swap x y ys)).symm.symm
    · rw [if_neg hyx]

theorem jsSort_go_perm (le : α → α → Bool) :
    ∀ (l acc : List α),
      List.Perm (l.foldl (fun acc x => insertSorted le x acc) acc) (acc ++ l) := by
  intro l
  induction l with
  | nil => intro acc; simp
  | cons x xs ih =>
    intro acc
    have h1 := ih (insertSorted le x acc)
    have h2 : List.Perm (insertSorted le x acc ++ xs) ((x :: acc) ++ xs) :=
      (insertSorted_perm le x acc).append_right xs
    have h3 : List.Perm ((x :: acc) ++ xs) (acc ++ x :: xs) :=
      List.perm_middle.symm
    simpa using (h1.trans h2).trans h3

/-- The sort model returns a permutation of its input. -/
theorem jsSort_perm (cmp : α → α → Int) (l : List α) :
    List.Perm (jsSort cmp l) l := by
  simpa using jsSort_go_perm (fun a b => cmp a b ≤ 0) l []

theorem insertSorted_chain' (le : α → α → Bool)
    (htot : ∀ a b, le a b = true ∨ le b a = true) (x : α) :
    ∀ l : List α, l.Chain' (fun a b => le a b = true) →
      (insertSorted le x l).Chain' (fun a b => le a b = true) := by
  intro l
  induction l with
  | nil => intro _; simp [insertSorted]
  | cons y ys ih =>
    intro h
    rw [insertSorted]
    by_cases hyx : le y x = true
    · rw [if_pos hyx]
      rw [List.chain'_cons']
      refine ⟨?_, ih h.tail⟩
      intro b hb
      cases ys with
      | nil =>
        simp [insertSorted] at hb
        subst hb
        exact hyx
      | cons z zs =>
        rw [insertSorted] at hb
        by_cases hzx : le z x = true
        · rw [if_pos hzx] at hb
          simp at hb
          subst hb
          exact (List.chain'_cons.mp h).1
        · rw [if_neg hzx] at hb
          simp at hb
          subst hb
          exact hyx
    · rw [if_neg hyx]
      rw [List.chain'_cons]
      exact ⟨(htot x y).resolve_right (fun hc => hyx hc), h⟩

theorem jsSort_go_chain' (le : α → α → Bool)
    (htot : ∀ a b, le a b = true ∨ le b a = true) :
    ∀ (l acc : List α), acc.Chain' (fun a b => le a b = true) →
      (l.foldl (fun acc x => insertSorted le x acc) acc).Chain'
        (fun a b => le a b = true) := by
  intro l
  induction l with
  | nil => intro acc h; simpa using h
  | cons x xs ih =>
    intro acc h
    exact ih (insertSorted le x acc) (insertSorted_chain' le htot x acc h)

/-- Adjacent elements of the sorted output respect the comparator,
provided the comparator is total in the `cmp a b ≤ 0 ∨ cmp b a ≤ 0`
sense. -/
theorem jsSort_chain' (cmp : α → α → Int)
    (htot : ∀ a b, cmp a b ≤ 0 ∨ cmp b a ≤ 0) (l : List α) :
    (jsSort cmp l).Chain' (fun a b => cmp a b ≤ 0) := by
  have h := jsSort_go_chain' (fun a b => decide (cmp a b ≤ 0))
    (by
      intro a b
      rcases htot a b with h | h
      · exact Or.inl (by simpa using h)
      · exact Or.inr (by simpa using h))
    l [] (by simp)
  have h2 := h.imp (fun ha hb hab => of_decide_eq_true hab)
  simpa [jsSort] using h2

theorem byTagCompare_total (getTime : String → Int) (a b : TodoItem) :
    byTagCompare getTime a b ≤ 0 ∨ byTagCompare getTime b a ≤ 0 := by
  simp only [byTagCompare]
  by_cases hp : ((prioRank a : Int)) = ((prioRank b : Int))
  · rcases a.due_time with _ | x <;> rcases b.due_time with _ | y <;>
      simp [hp] <;> omega
  · rcases a.due_time with _ | x <;> rcases b.due_time with _ | y <;>
      simp [hp, Ne.symm hp] <;> omega

theorem byTagCompare_prio (getTime : String → Int) (a b : TodoItem)
    (h : byTagCompare getTime a b ≤ 0) : prioRank a ≤ prioRank b := by
  simp only [byTagCompare] at h
  by_cases hp : ((prioRank a : Int)) = ((prioRank b : Int))
  · omega
  · rw [if_pos hp] at h
    omega

theorem fanOutItems_ok (fetchItems : String → Except RemoteFailure (List TodoItem))
    (itemsOf : String → List TodoItem)
    (hf : ∀ l, fetchItems l = .ok (itemsOf l)) :
    ∀ lists : List String,
      fanOutItems fetchItems lists = .ok ((lists.map itemsOf).flatten) := by
  intro lists
  induction lists with
  | nil => rfl
  | cons l ls ih => simp [fanOutItems, hf l, ih]

/-- C6 (amended): the unscoped get_tasks_by_tag result is a permutation
of the merged per-list items in which adjacent elements respect the
inline comparator — priority rank ascending (absent priority counting as
medium) throughout the sequence, and, within equal priority, ascending
due time whenever *both* neighbours carry a due time. Pairs in which a
due time is missing compare equal (the comparator returns 0), so a task
with a due time is *not* placed before an equal-priority task without
one; the stable sort leaves such pairs in merge order. -/
theorem byTag_sort_spec (getTime : String → Int) (ctx : ReqContext)
    (lists : List String) (itemsOf : String → List TodoItem)
    (fetchItems : String → Except RemoteFailure (List TodoItem))
    (hf : ∀ l, fetchItems l = .ok (itemsOf l)) :
    ∃ out,
      getTasksByTagUnscoped getTime ctx (.ok lists) fetchItems = .ok out ∧
      List.Perm out ((lists.map itemsOf).flatten) ∧
      out.Chain' (fun a b => byTagCompare getTime a b ≤ 0) ∧
      out.Pairwise (fun a b => prioRank a ≤ prioRank b) := by
  refine ⟨jsSort (byTagCompare getTime) ((lists.map itemsOf).flatten), ?_, ?_, ?_, ?_⟩
  · simp [getTasksByTagUnscoped, fanOutItems_ok fetchItems itemsOf hf lists]
  · exact jsSort_perm _ _
  · exact jsSort_chain' _ (byTagCompare_total getTime) _
  · haveI : IsTrans TodoItem (fun a b => prioRank a ≤ prioRank b) :=
      ⟨fun _ _ _ hab hbc => le_trans hab hbc⟩
    exact List.chain'_iff_pairwise.mp
      ((jsSort_chain' _ (byTagCompare_total getTime) _).imp
        (fun a b h => byTagCompare_prio getTime a b h))

/-- C6 counterexample: two equal-priority tagged tasks, the first without
a due time, the second with one. The by-tag comparator returns 0 on the
pair, the stable sort keeps the merge order, and the due-bearing task
ends up *after* the due-less one — the claimed ordering relation fails
on the adjacent output pair. -/
theorem byTag_no_due_first_cex :
    jsSort (byTagCompare (fun _ => 0)) [cexNoDue, cexWithDue] =
      [cexNoDue, cexWithDue] ∧
    prioRank cexNoDue = prioRank cexWithDue ∧
    cexNoDue.due_time = none ∧
    cexWithDue.due_time.isSome = true ∧
    claimedTagRel (fun _ => 0) cexNoDue cexWithDue = false := by
  refine ⟨by decide, by decide, by decide, by decide, by decide⟩

/-- Witness for C6 (amended), at one list holding the two tasks of the
counterexample in merge order due-bearing-last. -/
theorem byTag_sort_spec_witness :
    ∃ out,
      getTasksByTagUnscoped (fun _ => 0) ⟨"get_tasks_by_tag", none, none, none⟩
        (.ok ["l1"]) (fun _ => .ok [cexNoDue, cexWithDue]) = .ok out ∧
      List.Perm out (([("l1" : String)].map
        (fun _ => [cexNoDue, cexWithDue])).flatten) ∧
      out.Chain' (fun a b => byTagCompare (fun _ => 0) a b ≤ 0) ∧
      out.Pairwise (fun a b => prioRank a ≤ prioRank b) :=
  byTag_sort_spec (fun _ => 0) ⟨"get_tasks_by_tag", none, none, none⟩
    ["l1"] (fun _ => [cexNoDue, cexWithDue])
    (fun _ => .ok [cexNoDue, cexWithDue]) (fun _ => rfl)

theorem fanOutItems_error_of_first
    (fetchItems : String → Except RemoteFailure (List TodoItem))
    (bad : String) (post : List String) (e : RemoteFailure) :
    ∀ pre : List String,
      (∀ l ∈ pre, ∃ items, fetchItems l = .ok items) →
      fetchItems bad = .error e →
      fanOutItems fetchItems (pre ++ bad :: post) = .error e := by
  intro pre
  induction pre with
  | nil =>
    intro _ hbad
    simp [fanOutItems, hbad]
  | cons p ps ih =>
    intro hpre hbad
    obtain ⟨items, hp⟩ := hpre p (by simp)
    have := ih (fun l hl => hpre l (by simp [hl])) hbad
    simp [fanOutItems, hp, this]

/-- C7: in the unscoped planning fan-out (catalog retrieval, then one
item retrieval per list, in order) the first failing retrieval aborts
the whole operation: the result is the classified error built from that
failure's status and body, and no `.ok` value — hence no item from any
other list — is ever produced. -/
theorem fanOut_first_failure_aborts (getTime : String → Int) (maxItems : Nat)
    (ctx : ReqContext) (lists pre post : List String) (bad : String)
    (st : Nat) (body : ApiErrorBody)
    (fetchItems : String → Except RemoteFailure (List TodoItem))
    (hsplit : lists = pre ++ bad :: post)
    (hpre : ∀ l ∈ pre, ∃ items, fetchItems l = .ok items)
    (hbad : fetchItems bad = .error (st, body)) :
    getPlannableTasksUnscoped getTime maxItems ctx (.ok lists) fetchItems =
      .error (createActionableError st body ctx) ∧
    ∀ items, getPlannableTasksUnscoped getTime maxItems ctx (.ok lists)
      fetchItems ≠ .ok items := by
  subst hsplit
  have herr := fanOutItems_error_of_first fetchItems bad post (st, body) pre hpre hbad
  constructor
  · simp [getPlannableTasksUnscoped, herr]
  · intro items
    simp [getPlannableTasksUnscoped, herr]

/-- Witness for C7: the three-list scenario of the spec — list 2 fails,
the whole operation returns the classified error for that failure. -/
theorem fanOut_first_failure_aborts_witness :
    getPlannableTasksUnscoped (fun _ => 0) 50 fanCtx
        (.ok ["l1", "l2", "l3"]) fanFetch =
      .error (createActionableError 500 fanBody fanCtx) ∧
    ∀ items, getPlannableTasksUnscoped (fun _ => 0) 50 fanCtx
        (.ok ["l1", "l2", "l3"]) fanFetch ≠ .ok items :=
  fanOut_first_failure_aborts (fun _ => 0) 50 fanCtx
    ["l1", "l2", "l3"] ["l1"] ["l3"] "l2" 500 fanBody fanFetch rfl
    (by
      intro l hl
      simp only [List.mem_singleton] at hl
      subst hl
      exact ⟨[cexWithDue], rfl⟩)
    rfl

theorem dueDateCompare_total (getTime : String → Int) (a b : TodoItem) :
    dueDateCompare getTime a b ≤ 0 ∨ dueDateCompare getTime b a ≤ 0 := by
  simp only [dueDateCompare]
  rcases a.due_time with _ | x <;> rcases b.due_time with _ | y <;> simp <;> omega

theorem fanOutDueSoon_ok (nowISO futureISO : String)
    (fetchItems : String → Except RemoteFailure (List TodoItem))
    (itemsOf : String → List TodoItem)
    (hf : ∀ l, fetchItems l = .ok (itemsOf l)) :
    ∀ lists : List String,
      fanOutDueSoon nowISO futureISO fetchItems lists =
        .ok ((lists.map (fun l => dueSoonFilter nowISO futureISO (itemsOf l))).flatten) := by
  intro lists
  induction lists with
  | nil => rfl
  | cons l ls ih => simp [fanOutDueSoon, hf l, ih]

theorem dueVals_chain' (getTime : String → Int) :
    ∀ l : List TodoItem,
      (∀ it ∈ l, it.due_time.isSome = true) →
      l.Chain' (fun a b => dueDateCompare getTime a b ≤ 0) →
      (l.filterMap (fun it => it.due_time.map getTime)).Chain' (· ≤ ·) := by
  intro l
  induction l with
  | nil => intro _ _; simp
  | cons a t ih =>
    intro hsome hch
    obtain ⟨x, hx⟩ : ∃ x, a.due_time = some x := by
      have := hsome a (by simp)
      cases hxx : a.due_time with
      | none => rw [hxx] at this; simp at this
      | some x => exact ⟨x, rfl⟩
    cases t with
    | nil => simp [hx]
    | cons b t2 =>
      obtain ⟨y, hy⟩ : ∃ y, b.due_time = some y := by
        have := hsome b (by simp)
        cases hyy : b.due_time with
        | none => rw [hyy] at this; simp at this
        | some y => exact ⟨y, rfl⟩
      have hab := (List.chain'_cons.mp hch).1
      have hrest := ih (fun it hit => hsome it (by simp [hit]))
        (List.chain'_cons.mp hch).2
      simp only [List.filterMap_cons, hx, hy, Option.map_some'] at hrest ⊢
      rw [List.chain'_cons]
      refine ⟨?_, hrest⟩
      simp only [dueDateCompare, hx, hy] at hab
      omega

/-- C8: a fetched task enters the unscoped get_tasks_due_soon result
exactly when it has a due time lying in the *closed* window
`[nowISO, futureISO]` (`futureISO` renders `now + daysAhead` days,
daysAhead defaulting to 7), compared as ISO-8601 strings; and the result
is sorted ascending by due time — adjacent tasks respect the due-time
comparator and the sequence of due-time values is pairwise
nondecreasing. -/
theorem dueSoon_window_spec (getTime : String → Int)
    (nowISO futureISO : String) (ctx : ReqContext) (lists : List String)
    (itemsOf : String → List TodoItem)
    (fetchItems : String → Except RemoteFailure (List TodoItem))
    (hf : ∀ l, fetchItems l = .ok (itemsOf l)) :
    ∃ out,
      getTasksDueSoonUnscoped getTime nowISO futureISO ctx (.ok lists)
        fetchItems = .ok out ∧
      (∀ it, it ∈ out ↔
        it ∈ (lists.map itemsOf).flatten ∧
        dueInWindow nowISO futureISO it = true) ∧
      out.Chain' (fun a b => dueDateCompare getTime a b ≤ 0) ∧
      (out.filterMap (fun it => it.due_time.map getTime)).Pairwise (· ≤ ·) := by
  have hfan := fanOutDueSoon_ok nowISO futureISO fetchItems itemsOf hf lists
  set merged :=
    (lists.map (fun l => dueSoonFilter nowISO futureISO (itemsOf l))).flatten with hmerged
  have hperm : List.Perm (jsSort (dueDateCompare getTime) merged) merged :=
    jsSort_perm _ _
  have hch : (jsSort (dueDateCompare getTime) merged).Chain'
      (fun a b => dueDateCompare getTime a b ≤ 0) :=
    jsSort_chain' _ (dueDateCompare_total getTime) _
  have hmem : ∀ it, it ∈ jsSort (dueDateCompare getTime) merged ↔
      it ∈ (lists.map itemsOf).flatten ∧
      dueInWindow nowISO futureISO it = true := by
    intro it
    rw [hperm.mem_iff, hmerged]
    simp only [List.mem_flatten, List.mem_map, dueSoonFilter]
    constructor
    · rintro ⟨ls, ⟨l, hl, hls⟩, hit⟩
      rw [← hls, List.mem_filter] at hit
      exact ⟨⟨itemsOf l, ⟨l, hl, rfl⟩, hit.1⟩, hit.2⟩
    · rintro ⟨⟨ls, ⟨l, hl, hls⟩, hit⟩, hw⟩
      rw [← hls] at hit
      exact ⟨List.filter (dueInWindow nowISO futureISO) (itemsOf l),
        ⟨l, hl, rfl⟩, List.mem_filter.mpr ⟨hit, hw⟩⟩
  refine ⟨jsSort (dueDateCompare getTime) merged, ?_, hmem, hch, ?_⟩
  · simp [getTasksDueSoonUnscoped, hfan]
  · haveI : IsTrans Int (· ≤ ·) := ⟨fun _ _ _ => le_trans⟩
    refine List.chain'_iff_pairwise.mp ?_
    refine dueVals_chain' getTime _ ?_ hch
    intro it hit
    have := ((hmem it).mp hit).2
    simp only [dueInWindow] at this
    cases hd : it.due_time with
    | none => rw [hd] at this; simp at this
    | some d => simp

/-- Witness for C8, checking the claim's boundaries: due exactly at `now`
is included, due exactly at `now + daysAhead` is included, due one
second later is excluded. -/
theorem dueSoon_window_spec_witness :
    ∃ out,
      getTasksDueSoonUnscoped (fun _ => 0) dueNowISO dueEndISO
        ⟨"get_tasks_due_soon", none, none, none⟩ (.ok ["l1"])
        (fun _ => .ok [taskAtNow, taskAtEnd, taskAfter]) = .ok out ∧
      taskAtNow ∈ out ∧ taskAtEnd ∈ out ∧ taskAfter ∉ out := by
  obtain ⟨out, heq, hmem, _, _⟩ :=
    dueSoon_window_spec (fun _ => 0) dueNowISO dueEndISO
      ⟨"get_tasks_due_soon", none, none, none⟩ ["l1"]
      (fun _ => [taskAtNow, taskAtEnd, taskAfter])
      (fun _ => .ok [taskAtNow, taskAtEnd, taskAfter]) (fun _ => rfl)
  refine ⟨out, heq, ?_, ?_, ?_⟩
  · exact (hmem taskAtNow).mpr (of_decide_eq_true (by with_unfolding_all rfl))
  · exact (hmem taskAtEnd).mpr (of_decide_eq_true (by with_unfolding_all rfl))
  · exact fun hin => absurd ((hmem taskAfter).mp hin)
      (of_decide_eq_true (by with_unfolding_all rfl))

theorem foldl_add_parse (f : TodoItem → ℚ) :
    ∀ (items : List TodoItem) (q : ℚ),
      items.foldl (fun acc it => acc + f it) q = q + (items.map f).sum := by
  intro items
  induction items with
  | nil => intro q; simp
  | cons x xs ih =>
    intro q
    simp [ih (q + f x), add_assoc]

theorem findPT_eq_none : ∀ cs : List Char,
    ¬ (['P', 'T'] <:+: cs) → findPT cs = none := by
  intro cs
  induction cs with
  | nil => intro _; rfl
  | cons c rest ih =>
    intro h
    have hcond : ¬ (c = 'P' ∧ rest.head? = some 'T') := by
      rintro ⟨rfl, hh⟩
      apply h
      cases rest with
      | nil => simp at hh
      | cons r rt =>
        simp only [List.head?_cons, Option.some_inj] at hh
        subst hh
        exact ⟨[], rt, rfl⟩
    rw [findPT, if_neg hcond]
    apply ih
    intro hinf
    apply h
    obtain ⟨s, t, hst⟩ := hinf
    exact ⟨c :: s, t, by simp [hst]⟩

/-- C9: get_workload_summary's `total_hours` is the sum of the parsed
estimated durations of the aggregated tasks, rounded to one decimal
place; an absent duration parses to 0, a string in which the regex finds
no "PT" parses to 0 (no error in either case); and the tasks `PT1H`,
`PT30M` and one with no duration total 1.5 hours. -/
theorem workload_hours_spec :
    (∀ (nowISO oneWeekISO : String) (items : List TodoItem),
        (workloadSummary nowISO oneWeekISO items).total_hours =
          roundTo1 ((items.map
            (fun it => parseDurationToHours it.estimated_duration)).sum)) ∧
    parseDurationToHours none = 0 ∧
    (∀ s : String, strIncludes s "PT" = false →
        parseDurationToHours (some s) = 0) ∧
    (workloadSummary "" "" [wlOneHour, wlHalfHour, wlNoDuration]).total_hours
      = 3 / 2 := by
  refine ⟨?_, rfl, ?_, ?_⟩
  · intro nowISO oneWeekISO items
    simp [workloadSummary, foldl_add_parse]
  · intro s h
    have hpt : ("PT" : String).data = ['P', 'T'] := rfl
    have hni : ¬ (['P', 'T'] <:+: s.data) := by
      rw [strIncludes, hpt, decide_eq_false_iff_not] at h
      exact h
    simp [parseDurationToHours, findPT_eq_none s.data hni]
  · with_unfolding_all rfl

/-- Witness for the unparseable-duration clause of C9: "90 minutes"
contains no "PT", so it contributes 0 hours. -/
theorem workload_hours_spec_witness :
    parseDurationToHours (some "90 minutes") = 0 :=
  workload_hours_spec.2.2.1 "90 minutes" (by with_unfolding_all rfl)

end Mono
